import Mathlib

/-!
Shallow embedding of `config/config.go` from the export-service-go repository:
a layered configuration resolver (hard-coded defaults, viper environment
overrides, and an optional Clowder platform-injection stage).

The process environment is modelled as a partial map from variable names to
strings.  The viper options object is modelled as a list of per-key defaults
together with the environment; lookups follow viper's precedence
(environment over default, with `AutomaticEnv` upper-casing the key and
treating an empty environment value as unset) and viper's cast-style
coercions for the getter types the source uses.  The Clowder provider
(an external library) is modelled as structured input data: the
`AppConfig` descriptor plus the outcomes of its CA-materialization calls.
Go panics (fatal CA-write failures, nil-pointer dereferences, out-of-range
indexing) are modelled by `Option`: a `none` result means resolution aborts
without producing a configuration value.
-/

namespace ExportServiceConfig

/-- The process environment: a variable is either set to a string or unset. -/
def Env : Type := String → Option String

/-- Model of Go `os.Getenv`: the value of the variable, `""` when unset. -/
def osGetenv (env : Env) (key : String) : String :=
  (env key).getD ""

/-- Helper for `goSplitComma`: accumulate the current field (reversed). -/
def splitCommaAux : List Char → List Char → List String
  | [], acc => [String.mk acc.reverse]
  | c :: cs, acc =>
    if c = ',' then String.mk acc.reverse :: splitCommaAux cs []
    else splitCommaAux cs (c :: acc)

/-- Model of Go `strings.Split(s, ",")` (the only separator the source
uses): in particular splitting the empty string yields `[""]`. -/
def goSplitComma (s : String) : List String :=
  splitCommaAux s.data []

/-- Helper for `goFields`: accumulate the current field (reversed). -/
def fieldsAux : List Char → List Char → List String
  | [], acc => if acc = [] then [] else [String.mk acc.reverse]
  | c :: cs, acc =>
    if c.isWhitespace then
      if acc = [] then fieldsAux cs [] else String.mk acc.reverse :: fieldsAux cs []
    else fieldsAux cs (c :: acc)

/-- Model of Go `strings.Fields`: split on whitespace, dropping empty parts
(used by viper when casting an environment string to a string slice). -/
def goFields (s : String) : List String :=
  fieldsAux s.data []

/-- Helper for `goParseInt`: accumulate a decimal number, failing on a
non-digit character. -/
def parseNatAux : List Char → Nat → Option Nat
  | [], acc => some acc
  | c :: cs, acc =>
    if c.isDigit then parseNatAux cs (acc * 10 + (c.toNat - 48)) else none

/-- Model of Go `strconv` integer parsing as used by viper's `cast.ToInt`:
the parsed value, `0` on failure (the model covers decimal literals with an
optional sign). -/
def goParseInt (s : String) : Int :=
  match s.data with
  | [] => 0
  | '-' :: cs =>
    (match if cs = [] then none else parseNatAux cs 0 with
     | some n => -(n : Int)
     | none => 0)
  | '+' :: cs =>
    (match if cs = [] then none else parseNatAux cs 0 with
     | some n => (n : Int)
     | none => 0)
  | cs =>
    (match parseNatAux cs 0 with
     | some n => (n : Int)
     | none => 0)

/-- Model of Go `strconv.ParseBool` as used by viper's `cast.ToBool`:
the accepted true spellings, everything else (including parse errors)
coerces to `false`. -/
def goParseBool (s : String) : Bool :=
  s == "1" || s == "t" || s == "T" || s == "true" || s == "TRUE" || s == "True"

/-- A value stored as a viper default (`SetDefault` argument). -/
inductive viperValue : Type where
  | vStr (s : String)
  | vInt (n : Int)
  | vBool (b : Bool)
  | vList (l : List String)
deriving DecidableEq, Repr

/-- Association-list lookup (model of viper's internal key-value store). -/
def lookupAssoc {α : Type} : List (String × α) → String → Option α
  | [], _ => none
  | (k, v) :: rest, key => if k = key then some v else lookupAssoc rest key

/-- A viper options object: the registered defaults plus the environment
(`AutomaticEnv` is on, so every getter consults the environment first). -/
structure Options : Type where
  defaults : List (String × viperValue)
  env : Env

/-- Model of Go `strings.ToUpper` on the ASCII key names viper uses. -/
def asciiUpper (s : String) : String :=
  String.mk (s.data.map Char.toUpper)

/-- Viper's `AutomaticEnv` lookup: the key is upper-cased, and (with the
default `allowEmptyEnv = false`) an empty environment value counts as unset. -/
def viperEnvLookup (env : Env) (key : String) : Option String :=
  match env (asciiUpper key) with
  | some v => if v = "" then none else some v
  | none => none

/-- Viper `Get`: environment first, then the registered default. -/
def optionsGet (o : Options) (key : String) : Option viperValue :=
  match viperEnvLookup o.env key with
  | some s => some (.vStr s)
  | none => lookupAssoc o.defaults key

/-- Viper cast to string (`cast.ToString`; a slice coerces to the zero value). -/
def viperToString : viperValue → String
  | .vStr s => s
  | .vInt n => toString n
  | .vBool b => if b then "true" else "false"
  | .vList _ => ""

/-- Viper cast to int (`cast.ToInt`). -/
def viperToInt : viperValue → Int
  | .vStr s => goParseInt s
  | .vInt n => n
  | .vBool b => if b then 1 else 0
  | .vList _ => 0

/-- Viper cast to bool (`cast.ToBool`). -/
def viperToBool : viperValue → Bool
  | .vStr s => goParseBool s
  | .vInt n => n ≠ 0
  | .vBool b => b
  | .vList _ => false

/-- Viper cast to string slice (`cast.ToStringSlice`: a plain string is
split on whitespace). -/
def viperToStringSlice : viperValue → List String
  | .vStr s => goFields s
  | .vList l => l
  | _ => []

/-- Model of `options.GetString key`. -/
def optionsGetString (o : Options) (key : String) : String :=
  match optionsGet o key with
  | some v => viperToString v
  | none => ""

/-- Model of `options.GetInt key`. -/
def optionsGetInt (o : Options) (key : String) : Int :=
  match optionsGet o key with
  | some v => viperToInt v
  | none => 0

/-- Model of `options.GetBool key`. -/
def optionsGetBool (o : Options) (key : String) : Bool :=
  match optionsGet o key with
  | some v => viperToBool v
  | none => false

/-- Model of `options.GetStringSlice key`. -/
def optionsGetStringSlice (o : Options) (key : String) : List String :=
  match optionsGet o key with
  | some v => viperToStringSlice v
  | none => []

/-- Model of `kubenv.GetString key`: a fresh viper instance with `AutomaticEnv` and
no defaults. -/
def kubenvGetString (env : Env) (key : String) : String :=
  match viperEnvLookup env key with
  | some s => s
  | none => ""

/-! ## The configuration data model (the Go structs of `config.go`) -/

/-- The `const ExportTopic` of the source. -/
def ExportTopic : String := "platform.export.requests"

/-- Go struct `dbSSLConfig`. -/
structure dbSSLConfig : Type where
  RdsCa : Option String
  SSLMode : String
deriving DecidableEq, Repr

/-- Go struct `dbConfig`. -/
structure dbConfig : Type where
  User : String
  Password : String
  Hostname : String
  Port : String
  Name : String
  SSLCfg : dbSSLConfig
deriving DecidableEq, Repr

/-- Go struct `loggingConfig`. -/
structure loggingConfig : Type where
  AccessKeyID : String
  SecretAccessKey : String
  LogGroup : String
  Region : String
deriving DecidableEq, Repr

/-- Go struct `kafkaSSLConfig`. -/
structure kafkaSSLConfig : Type where
  CA : String
  Username : String
  Password : String
  SASLMechanism : String
  Protocol : String
deriving DecidableEq, Repr

/-- The Go zero value of `kafkaSSLConfig` (all fields empty strings). -/
def zeroKafkaSSLConfig : kafkaSSLConfig :=
  { CA := "", Username := "", Password := "", SASLMechanism := "", Protocol := "" }

/-- Go struct `kafkaConfig`. -/
structure kafkaConfig : Type where
  Brokers : List String
  GroupID : String
  ExportsTopic : String
  SSLConfig : kafkaSSLConfig
  EventSource : String
  EventSpecVersion : String
  EventType : String
  EventDataSchema : String
deriving DecidableEq, Repr

/-- Go struct `storageConfig`. -/
structure storageConfig : Type where
  Bucket : String
  Endpoint : String
  AccessKey : String
  SecretKey : String
  UseSSL : Bool
deriving DecidableEq, Repr

/-- Go struct `ExportConfig` (the resolved snapshot). `Logging` is a
pointer in Go, hence `Option` here; ports are Go `int`. -/
structure ExportConfig : Type where
  Hostname : String
  PublicPort : Int
  MetricsPort : Int
  PrivatePort : Int
  Logging : Option loggingConfig
  LogLevel : String
  Debug : Bool
  DBConfig : dbConfig
  StorageConfig : storageConfig
  KafkaConfig : kafkaConfig
  OpenAPIPrivatePath : String
  OpenAPIPublicPath : String
  Psks : List String
  ExportExpiryDays : Int
deriving DecidableEq, Repr

/-! ## The Clowder platform-injection provider (external library input) -/

/-- Clowder `KafkaSASLConfig`: pointer-typed credential fields. -/
structure KafkaSASLConfig : Type where
  Username : Option String
  Password : Option String
  SaslMechanism : Option String
deriving DecidableEq, Repr

/-- Clowder per-broker descriptor (the fields the source reads). -/
structure BrokerConfig : Type where
  Authtype : Option String
  Sasl : Option KafkaSASLConfig
  SecurityProtocol : Option String
deriving DecidableEq, Repr

/-- Clowder database descriptor (the fields the source reads). -/
structure ClowderDatabaseConfig : Type where
  Username : String
  Password : String
  Hostname : String
  Port : Int
  Name : String
  SslMode : String
  RdsCa : Option String
deriving DecidableEq, Repr

/-- Clowder CloudWatch logging descriptor. -/
structure CloudWatchConfig : Type where
  AccessKeyId : String
  SecretAccessKey : String
  LogGroup : String
  Region : String
deriving DecidableEq, Repr

/-- Clowder object-store bucket descriptor (the fields the source reads). -/
structure ObjectStoreBucket : Type where
  AccessKey : Option String
  SecretKey : Option String
  RequestedName : String
deriving DecidableEq, Repr

/-- The Go zero value of a Clowder bucket (missing map keys yield it). -/
def zeroObjectStoreBucket : ObjectStoreBucket :=
  { AccessKey := none, SecretKey := none, RequestedName := "" }

/-- Clowder object-store descriptor. -/
structure ObjectStoreConfig : Type where
  Hostname : String
  Port : Int
  Tls : Bool
  Buckets : List ObjectStoreBucket
deriving DecidableEq, Repr

/-- Clowder Kafka descriptor. -/
structure ClowderKafkaConfig : Type where
  Brokers : List BrokerConfig
deriving DecidableEq, Repr

/-- Clowder `AppConfig` (`clowder.LoadedConfig`): pointer-typed fields are
`Option`, dereferencing `none` is a Go nil-pointer panic. -/
structure AppConfig : Type where
  PublicPort : Option Int
  MetricsPort : Int
  PrivatePort : Option Int
  Database : Option ClowderDatabaseConfig
  Kafka : Option ClowderKafkaConfig
  LoggingCloudwatch : Option CloudWatchConfig
  ObjectStore : Option ObjectStoreConfig
deriving DecidableEq, Repr

/-- The whole platform-injection provider: the loaded `AppConfig`, the
package-level `clowder.KafkaServers` list and `clowder.ObjectBuckets`
registry, and the outcomes of the two CA-materialization calls
(`cfg.RdsCa()` and `cfg.KafkaCa(broker)`), each either a written file path
or an I/O error. -/
structure Platform : Type where
  cfg : AppConfig
  KafkaServers : List String
  ObjectBuckets : List (String × ObjectStoreBucket)
  rdsCaResult : Except String String
  kafkaCaResult : Except String String
deriving Repr

/-! ## The resolution algorithm -/

/-- Go `buildBaseHttpUrl`. -/
def buildBaseHttpUrl (tlsEnabled : Bool) (hostname : String) (port : Int) : String :=
  let protocol : String := if tlsEnabled then "https" else "http"
  protocol ++ "://" ++ hostname ++ ":" ++ toString port

/-- The defaults registered by the `options.SetDefault` calls; the PSK and
broker lists are computed from the environment at default-registration time. -/
def defaultsFor (env : Env) : List (String × viperValue) :=
  [("PUBLIC_PORT", .vInt 8000),
   ("METRICS_PORT", .vInt 9000),
   ("PRIVATE_PORT", .vInt 10000),
   ("LOG_LEVEL", .vStr "INFO"),
   ("DEBUG", .vBool false),
   ("OPEN_API_FILE_PATH", .vStr "./static/spec/openapi.json"),
   ("OPEN_API_PRIVATE_PATH", .vStr "./static/spec/private.json"),
   ("PSKS", .vList (goSplitComma (osGetenv env "EXPORTS_PSKS"))),
   ("EXPORT_EXPIRY_DAYS", .vInt 7),
   ("PGSQL_USER", .vStr "postgres"),
   ("PGSQL_PASSWORD", .vStr "postgres"),
   ("PGSQL_HOSTNAME", .vStr "localhost"),
   ("PGSQL_PORT", .vStr "15433"),
   ("PGSQL_DATABASE", .vStr "postgres"),
   ("MINIO_HOST", .vStr "localhost"),
   ("MINIO_PORT", .vStr "9099"),
   ("MINIO_SSL", .vBool false),
   ("KAFKA_ANNOUNCE_TOPIC", .vStr ExportTopic),
   ("KAFKA_BROKERS", .vList (goSplitComma (osGetenv env "KAFKA_BROKERS"))),
   ("KAFKA_GROUP_ID", .vStr "export"),
   ("KAFKA_EVENT_SOURCE", .vStr "urn:redhat:source:export-service"),
   ("KAFKA_EVENT_SPECVERSION", .vStr "1.0"),
   ("KAFKA_EVENT_TYPE", .vStr "com.redhat.console.export-service.request"),
   ("KAFKA_EVENT_DATASCHEMA", .vStr "https://github.com/RedHatInsights/event-schemas/blob/main/schemas/apps/export-service/v1/export-request.json")]

/-- The options object built at the start of `Get`. -/
def mkOptions (env : Env) : Options :=
  { defaults := defaultsFor env, env := env }

/-- Stages 1-2 of `Get`: the defaults-plus-environment snapshot assigned to
`config` before the Clowder branch (lines 128-168 of the source).  Fields
the Go struct literals omit get their zero values (`Logging` nil,
`SSLCfg.RdsCa` nil, `SSLMode` set to "disable", Kafka SSL all-empty). -/
def envStage (o : Options) (env : Env) : ExportConfig :=
  { Hostname := kubenvGetString env "Hostname"
    PublicPort := optionsGetInt o "PUBLIC_PORT"
    MetricsPort := optionsGetInt o "METRICS_PORT"
    PrivatePort := optionsGetInt o "PRIVATE_PORT"
    Logging := none
    Debug := optionsGetBool o "DEBUG"
    LogLevel := optionsGetString o "LOG_LEVEL"
    OpenAPIPublicPath := optionsGetString o "OPEN_API_FILE_PATH"
    OpenAPIPrivatePath := optionsGetString o "OPEN_API_PRIVATE_PATH"
    Psks := optionsGetStringSlice o "PSKS"
    ExportExpiryDays := optionsGetInt o "EXPORT_EXPIRY_DAYS"
    DBConfig :=
      { User := optionsGetString o "PGSQL_USER"
        Password := optionsGetString o "PGSQL_PASSWORD"
        Hostname := optionsGetString o "PGSQL_HOSTNAME"
        Port := optionsGetString o "PGSQL_PORT"
        Name := optionsGetString o "PGSQL_DATABASE"
        SSLCfg := { RdsCa := none, SSLMode := "disable" } }
    StorageConfig :=
      { Bucket := "exports-bucket"
        Endpoint := buildBaseHttpUrl (optionsGetBool o "MINIO_SSL")
          (optionsGetString o "MINIO_HOST") (optionsGetInt o "MINIO_PORT")
        AccessKey := optionsGetString o "AWS_ACCESS_KEY"
        SecretKey := optionsGetString o "AWS_SECRET_ACCESS_KEY"
        UseSSL := optionsGetBool o "MINIO_SSL" }
    KafkaConfig :=
      { Brokers := optionsGetStringSlice o "KAFKA_BROKERS"
        GroupID := optionsGetString o "KAFKA_GROUP_ID"
        ExportsTopic := optionsGetString o "KAFKA_ANNOUNCE_TOPIC"
        SSLConfig := zeroKafkaSSLConfig
        EventSource := optionsGetString o "KAFKA_EVENT_SOURCE"
        EventSpecVersion := optionsGetString o "KAFKA_EVENT_SPECVERSION"
        EventType := optionsGetString o "KAFKA_EVENT_TYPE"
        EventDataSchema := optionsGetString o "KAFKA_EVENT_DATASCHEMA" } }

/-- Go `getRdsCaPath`: materialize the RDS CA only when the platform
declares one; a write failure is propagated as an error. -/
def getRdsCaPath (db : ClowderDatabaseConfig) (rdsCaResult : Except String String) :
    Except String (Option String) :=
  match db.RdsCa with
  | none => Except.ok none
  | some _ =>
    match rdsCaResult with
    | Except.error e => Except.error e
    | Except.ok path => Except.ok (some path)

/-- The conditional Kafka SSL block (lines 199-215): when the first broker
declares an auth type, materialize the Kafka CA (a write failure panics),
default the security protocol to "sasl_ssl", and populate the policy from
the broker's SASL descriptor (nil dereferences panic); otherwise the
policy keeps its current (zero) value. -/
def clowderKafkaSSL (current : kafkaSSLConfig) (p : Platform) (broker : BrokerConfig) :
    Option kafkaSSLConfig :=
  match broker.Authtype with
  | none => some current
  | some _ => do
    let caPath ← p.kafkaCaResult.toOption
    let securityProtocol : String :=
      match broker.SecurityProtocol with
      | some sp => sp
      | none => "sasl_ssl"
    let sasl ← broker.Sasl
    let u ← sasl.Username
    let pw ← sasl.Password
    let m ← sasl.SaslMechanism
    some { CA := caPath, Username := u, Password := pw,
           SASLMechanism := m, Protocol := securityProtocol }

/-- Stage 3 of `Get`: the Clowder branch (lines 170-232).  `none` models a
panic (CA-write failure, nil dereference, or out-of-range index): no
configuration value is produced. -/
def clowderStage (o : Options) (base : ExportConfig) (p : Platform) :
    Option ExportConfig := do
  let cfg := p.cfg
  let publicPort ← cfg.PublicPort
  let privatePort ← cfg.PrivatePort
  let exportBucket := optionsGetString o "EXPORT_SERVICE_BUCKET"
  let exportBucketInfo := (lookupAssoc p.ObjectBuckets exportBucket).getD zeroObjectStoreBucket
  let db ← cfg.Database
  let rdsCaPath ← (getRdsCaPath db p.rdsCaResult).toOption
  let kafka ← cfg.Kafka
  let broker ← kafka.Brokers.head?
  let sslConfig ← clowderKafkaSSL base.KafkaConfig.SSLConfig p broker
  let cw ← cfg.LoggingCloudwatch
  let objectStore ← cfg.ObjectStore
  let bucket ← objectStore.Buckets.head?
  let accessK ← bucket.AccessKey
  let secretK ← bucket.SecretKey
  some { base with
    PublicPort := publicPort
    MetricsPort := cfg.MetricsPort
    PrivatePort := privatePort
    DBConfig :=
      { User := db.Username
        Password := db.Password
        Hostname := db.Hostname
        Port := toString db.Port
        Name := db.Name
        SSLCfg := { SSLMode := db.SslMode, RdsCa := rdsCaPath } }
    KafkaConfig := { base.KafkaConfig with Brokers := p.KafkaServers, SSLConfig := sslConfig }
    Logging := some
      { AccessKeyID := cw.AccessKeyId
        SecretAccessKey := cw.SecretAccessKey
        LogGroup := cw.LogGroup
        Region := cw.Region }
    StorageConfig :=
      { Bucket := exportBucketInfo.RequestedName
        Endpoint := buildBaseHttpUrl objectStore.Tls objectStore.Hostname objectStore.Port
        AccessKey := accessK
        SecretKey := secretK
        UseSSL := objectStore.Tls } }

/-- Go `Get`, one full resolution: stages 1-2 always run; stage 3 runs when
Clowder injection is active (`platform = some p` models
`clowder.IsClowderEnabled()`).  A `none` result models a panic: the call
aborts without returning a configuration. -/
def Get (env : Env) (platform : Option Platform) : Option ExportConfig :=
  let o := mkOptions env
  let base := envStage o env
  match platform with
  | none => some base
  | some p => clowderStage o base p

/-- The process-global memoization (`var config` guarded by `doOnce`):
state is the stored snapshot (`none` before the first completed
resolution).  A later call finds the stored snapshot and returns it
without re-reading any source. -/
def GetCached (env : Env) (platform : Option Platform) (st : Option ExportConfig) :
    Option ExportConfig × Option ExportConfig :=
  match st with
  | some c => (some c, some c)
  | none =>
    match Get env platform with
    | some c => (some c, some c)
    | none => (none, none)


/-! ## Concrete fixtures used by witnesses and counterexamples -/

/-- The empty environment: no variable is set. -/
def env0 : Env := fun _ => none

/-- An environment in which exactly one variable is set. -/
def envSingle (key val : String) : Env :=
  fun k => if k = key then some val else none

/-- An environment that only sets the Kafka consumer group id. -/
def envKG : Env := envSingle "KAFKA_GROUP_ID" "not-from-platform"

/-- An environment that only sets the viper key `PSKS` itself (not
`EXPORTS_PSKS`). -/
def envPsks : Env := envSingle "PSKS" "extra-psk"

/-- A platform database descriptor that declares an RDS CA bundle. -/
def db0 : ClowderDatabaseConfig :=
  { Username := "bob", Password := "platform-pw", Hostname := "db.host", Port := 5432,
    Name := "exports", SslMode := "verify-full", RdsCa := some "ca-pem-data" }

/-- A platform broker descriptor declaring an auth type, SASL credentials
and an explicit security protocol. -/
def broker0 : BrokerConfig :=
  { Authtype := some "sasl",
    Sasl := some { Username := some "sasl-user", Password := some "sasl-pw",
                   SaslMechanism := some "SCRAM-SHA-512" },
    SecurityProtocol := some "SASL_SSL" }

/-- A fully-populated platform-injection fixture on which resolution
succeeds. -/
def plat0 : Platform :=
  { cfg :=
      { PublicPort := some 8800, MetricsPort := 9900, PrivatePort := some 10100,
        Database := some db0,
        Kafka := some { Brokers := [broker0] },
        LoggingCloudwatch := some
          { AccessKeyId := "cw-ak", SecretAccessKey := "cw-sk",
            LogGroup := "lg", Region := "us-east-1" },
        ObjectStore := some
          { Hostname := "minio", Port := 443, Tls := true,
            Buckets := [{ AccessKey := some "oak", SecretKey := some "osk",
                          RequestedName := "real-bucket" }] } },
    KafkaServers := ["kafka-1:9092", "kafka-2:9092"],
    ObjectBuckets := [("exports-bucket-env",
      { AccessKey := none, SecretKey := none, RequestedName := "real-bucket" })],
    rdsCaResult := Except.ok "/tmp/rdsca.pem",
    kafkaCaResult := Except.ok "/tmp/kafkaca.pem" }

/-- The fixture `plat0` with a failing RDS CA materialization. -/
def platRdsFail : Platform := { plat0 with rdsCaResult := Except.error "io error" }

/-- The fixture `plat0` with a failing Kafka CA materialization. -/
def platKafkaFail : Platform := { plat0 with kafkaCaResult := Except.error "io error" }

/-- The snapshot the documented defaults describe: the expected result of
resolving with no environment and no platform injection. -/
def defaultResolved : ExportConfig :=
  { Hostname := ""
    PublicPort := 8000
    MetricsPort := 9000
    PrivatePort := 10000
    Logging := none
    LogLevel := "INFO"
    Debug := false
    DBConfig :=
      { User := "postgres", Password := "postgres", Hostname := "localhost",
        Port := "15433", Name := "postgres",
        SSLCfg := { RdsCa := none, SSLMode := "disable" } }
    StorageConfig :=
      { Bucket := "exports-bucket", Endpoint := "http://localhost:9099",
        AccessKey := "", SecretKey := "", UseSSL := false }
    KafkaConfig :=
      { Brokers := [""]
        GroupID := "export"
        ExportsTopic := "platform.export.requests"
        SSLConfig := zeroKafkaSSLConfig
        EventSource := "urn:redhat:source:export-service"
        EventSpecVersion := "1.0"
        EventType := "com.redhat.console.export-service.request"
        EventDataSchema := "https://github.com/RedHatInsights/event-schemas/blob/main/schemas/apps/export-service/v1/export-request.json" }
    OpenAPIPrivatePath := "./static/spec/private.json"
    OpenAPIPublicPath := "./static/spec/openapi.json"
    Psks := [""]
    ExportExpiryDays := 7 }

/-- The snapshot resolution yields on `env0` with injection from `plat0`. -/
def clowderResolved0 : ExportConfig :=
  { defaultResolved with
    PublicPort := 8800
    MetricsPort := 9900
    PrivatePort := 10100
    Logging := some
      { AccessKeyID := "cw-ak", SecretAccessKey := "cw-sk",
        LogGroup := "lg", Region := "us-east-1" }
    DBConfig :=
      { User := "bob", Password := "platform-pw", Hostname := "db.host",
        Port := "5432", Name := "exports",
        SSLCfg := { RdsCa := some "/tmp/rdsca.pem", SSLMode := "verify-full" } }
    StorageConfig :=
      { Bucket := "", Endpoint := "https://minio:443",
        AccessKey := "oak", SecretKey := "osk", UseSSL := true }
    KafkaConfig :=
      { defaultResolved.KafkaConfig with
        Brokers := ["kafka-1:9092", "kafka-2:9092"]
        SSLConfig :=
          { CA := "/tmp/kafkaca.pem", Username := "sasl-user", Password := "sasl-pw",
            SASLMechanism := "SCRAM-SHA-512", Protocol := "SASL_SSL" } } }

/-! ## Shared helper lemmas -/

theorem except_toOption_eq_ok {ε α : Type} {e : Except ε α} {a : α} :
    e.toOption = some a ↔ e = Except.ok a := by
  cases e <;> simp [Except.toOption]

/-- Destructuring of a successful platform-injection stage: every bind in
the Clowder branch succeeded, and the result is the base snapshot with the
platform-derived replacements applied. -/
theorem clowderStage_some {o : Options} {base : ExportConfig} {p : Platform} {c : ExportConfig}
    (h : clowderStage o base p = some c) :
    ∃ publicPort privatePort db rdsCaPath kafka broker sslConfig cw objectStore bucket accessK secretK,
      p.cfg.PublicPort = some publicPort ∧
      p.cfg.PrivatePort = some privatePort ∧
      p.cfg.Database = some db ∧
      getRdsCaPath db p.rdsCaResult = Except.ok rdsCaPath ∧
      p.cfg.Kafka = some kafka ∧
      kafka.Brokers.head? = some broker ∧
      clowderKafkaSSL base.KafkaConfig.SSLConfig p broker = some sslConfig ∧
      p.cfg.LoggingCloudwatch = some cw ∧
      p.cfg.ObjectStore = some objectStore ∧
      objectStore.Buckets.head? = some bucket ∧
      bucket.AccessKey = some accessK ∧
      bucket.SecretKey = some secretK ∧
      c = { base with
        PublicPort := publicPort
        MetricsPort := p.cfg.MetricsPort
        PrivatePort := privatePort
        DBConfig :=
          { User := db.Username, Password := db.Password, Hostname := db.Hostname,
            Port := toString db.Port, Name := db.Name,
            SSLCfg := { SSLMode := db.SslMode, RdsCa := rdsCaPath } }
        KafkaConfig := { base.KafkaConfig with Brokers := p.KafkaServers, SSLConfig := sslConfig }
        Logging := some
          { AccessKeyID := cw.AccessKeyId, SecretAccessKey := cw.SecretAccessKey,
            LogGroup := cw.LogGroup, Region := cw.Region }
        StorageConfig :=
          { Bucket := ((lookupAssoc p.ObjectBuckets
              (optionsGetString o "EXPORT_SERVICE_BUCKET")).getD zeroObjectStoreBucket).RequestedName,
            Endpoint := buildBaseHttpUrl objectStore.Tls objectStore.Hostname objectStore.Port,
            AccessKey := accessK, SecretKey := secretK, UseSSL := objectStore.Tls } } := by
  simp only [clowderStage, bind, Option.bind_eq_some, Option.some.injEq] at h
  obtain ⟨pp, hpp, prp, hprp, db, hdb, rds, hrds, kafka, hkafka, broker, hbroker,
    ssl, hssl, cw, hcw, oss, hoss, bucket, hbucket, ak, hak, sk, hsk, hc⟩ := h
  rw [except_toOption_eq_ok] at hrds
  exact ⟨pp, prp, db, rds, kafka, broker, ssl, cw, oss, bucket, ak, sk,
    hpp, hprp, hdb, hrds, hkafka, hbroker, hssl, hcw, hoss, hbucket, hak, hsk, hc.symm⟩

/-- A successful Kafka SSL block with a declared auth type exposes the CA
path, the SASL descriptor fields and the (possibly defaulted) protocol. -/
theorem clowderKafkaSSL_some_of_auth {current : kafkaSSLConfig} {p : Platform}
    {broker : BrokerConfig} {s : kafkaSSLConfig} {a : String}
    (hA : broker.Authtype = some a)
    (h : clowderKafkaSSL current p broker = some s) :
    ∃ ca sasl u pw m,
      p.kafkaCaResult = Except.ok ca ∧
      broker.Sasl = some sasl ∧
      sasl.Username = some u ∧ sasl.Password = some pw ∧ sasl.SaslMechanism = some m ∧
      s = { CA := ca, Username := u, Password := pw, SASLMechanism := m,
            Protocol := (broker.SecurityProtocol).getD "sasl_ssl" } := by
  rw [clowderKafkaSSL, hA] at h
  simp only [bind, Option.bind_eq_some, Option.some.injEq] at h
  obtain ⟨ca, hca, sasl, hsasl, u, hu, pw, hpw, m, hm, hs⟩ := h
  rw [except_toOption_eq_ok] at hca
  refine ⟨ca, sasl, u, pw, m, hca, hsasl, hu, hpw, hm, ?_⟩
  rw [← hs]
  cases hsp : broker.SecurityProtocol <;> simp [hsp, Option.getD]

/-- When the Kafka CA write fails and the first broker declares an auth
type, the Kafka SSL block panics. -/
theorem clowderKafkaSSL_none_of_caFail {current : kafkaSSLConfig} {p : Platform}
    {broker : BrokerConfig} {e : String}
    (hA : broker.Authtype ≠ none)
    (hc : p.kafkaCaResult = Except.error e) :
    clowderKafkaSSL current p broker = none := by
  cases hA2 : broker.Authtype with
  | none => exact absurd hA2 hA
  | some a =>
    rw [clowderKafkaSSL, hA2, hc]
    simp [Except.toOption]

/-! ## Claim theorems -/

/-- Claim C5: resolving with no recognized environment variable set and no
platform injection yields exactly the documented defaults (ports 8000/9000/
10000, log level INFO, debug off, the two OpenAPI paths, export expiry 7,
database postgres/postgres/localhost/"15433"/postgres, object storage on
localhost:9099 without TLS, broker group id "export", announce topic
"platform.export.requests", and the fixed CloudEvents envelope metadata). -/
theorem C5_default_resolution : Get env0 none = some defaultResolved := by decide

/-- Claim C2: the object-storage endpoint is derived as
scheme ++ "://" ++ host ++ ":" ++ port with scheme https exactly when TLS is
on; the two documented examples hold; and both the environment stage and the
platform-injection stage compute the endpoint through this derivation rather
than reading it as a literal string. -/
theorem C2_url_derivation :
    (∀ (useTLS : Bool) (host : String) (port : Int),
      buildBaseHttpUrl useTLS host port =
        (if useTLS then "https" else "http") ++ "://" ++ host ++ ":" ++ toString port) ∧
    buildBaseHttpUrl false "localhost" 9099 = "http://localhost:9099" ∧
    buildBaseHttpUrl true "minio" 443 = "https://minio:443" ∧
    (∀ env : Env, (envStage (mkOptions env) env).StorageConfig.Endpoint =
      buildBaseHttpUrl (optionsGetBool (mkOptions env) "MINIO_SSL")
        (optionsGetString (mkOptions env) "MINIO_HOST")
        (optionsGetInt (mkOptions env) "MINIO_PORT")) ∧
    (∀ (o : Options) (base : ExportConfig) (p : Platform) (c : ExportConfig),
      clowderStage o base p = some c →
      ∃ objectStore, p.cfg.ObjectStore = some objectStore ∧
        c.StorageConfig.Endpoint =
          buildBaseHttpUrl objectStore.Tls objectStore.Hostname objectStore.Port) := by
  refine ⟨?_, by decide, by decide, fun env => rfl, ?_⟩
  · intro useTLS host port
    cases useTLS <;> rfl
  · intro o base p c h
    obtain ⟨pp, prp, db, rds, kafka, broker, ssl, cw, oss, bucket, ak, sk,
      _, _, _, _, _, _, _, _, hoss, _, _, _, hc⟩ := clowderStage_some h
    exact ⟨oss, hoss, by rw [hc]⟩

/-- Claim C2 witness: the platform-stage conjunct applied to the concrete
fixture. -/
theorem C2_url_derivation_witness :
    ∃ objectStore, plat0.cfg.ObjectStore = some objectStore ∧
      clowderResolved0.StorageConfig.Endpoint =
        buildBaseHttpUrl objectStore.Tls objectStore.Hostname objectStore.Port :=
  C2_url_derivation.2.2.2.2 (mkOptions env0) (envStage (mkOptions env0) env0)
    plat0 clowderResolved0 (by decide)

/-- Claim C1 counterexample: with platform injection active (`plat0`), the
resolved consumer group id follows the `KAFKA_GROUP_ID` environment
variable rather than any platform-supplied value, so `BrokerConfig` is not
fully replaced by platform-derived values. -/
theorem C1_counterexample :
    (Get envKG (some plat0)).map (fun c => c.KafkaConfig.GroupID) = some "not-from-platform" ∧
    (Get env0 (some plat0)).map (fun c => c.KafkaConfig.GroupID) = some "export" ∧
    ("not-from-platform" : String) ≠ "export" := ⟨by decide, by decide, by decide⟩

/-- Claim C1 (amended): when platform injection is active and resolution
succeeds, DatabaseConfig and ObjectStorageConfig are fully replaced by
platform-derived values and LoggingConfig transitions from absent to
present; BrokerConfig, however, only has its broker list (and, conditionally,
its SSL policy) replaced: the consumer group id, topic name and event-envelope
metadata keep their environment-derived values. -/
theorem C1_platform_replacement (env : Env) (p : Platform) (c : ExportConfig)
    (h : Get env (some p) = some c) :
    (∃ db rdsCaPath,
      p.cfg.Database = some db ∧
      c.DBConfig = { User := db.Username, Password := db.Password, Hostname := db.Hostname,
                     Port := toString db.Port, Name := db.Name,
                     SSLCfg := { SSLMode := db.SslMode, RdsCa := rdsCaPath } }) ∧
    (∃ objectStore bucket accessK secretK,
      p.cfg.ObjectStore = some objectStore ∧
      objectStore.Buckets.head? = some bucket ∧
      bucket.AccessKey = some accessK ∧ bucket.SecretKey = some secretK ∧
      c.StorageConfig =
        { Bucket := ((lookupAssoc p.ObjectBuckets
            (optionsGetString (mkOptions env) "EXPORT_SERVICE_BUCKET")).getD
              zeroObjectStoreBucket).RequestedName,
          Endpoint := buildBaseHttpUrl objectStore.Tls objectStore.Hostname objectStore.Port,
          AccessKey := accessK, SecretKey := secretK, UseSSL := objectStore.Tls }) ∧
    (∃ cw, p.cfg.LoggingCloudwatch = some cw ∧
      c.Logging = some { AccessKeyID := cw.AccessKeyId, SecretAccessKey := cw.SecretAccessKey,
                         LogGroup := cw.LogGroup, Region := cw.Region }) ∧
    c.KafkaConfig.Brokers = p.KafkaServers ∧
    c.KafkaConfig.GroupID = optionsGetString (mkOptions env) "KAFKA_GROUP_ID" ∧
    c.KafkaConfig.ExportsTopic = optionsGetString (mkOptions env) "KAFKA_ANNOUNCE_TOPIC" ∧
    c.KafkaConfig.EventSource = optionsGetString (mkOptions env) "KAFKA_EVENT_SOURCE" ∧
    c.KafkaConfig.EventSpecVersion = optionsGetString (mkOptions env) "KAFKA_EVENT_SPECVERSION" ∧
    c.KafkaConfig.EventType = optionsGetString (mkOptions env) "KAFKA_EVENT_TYPE" ∧
    c.KafkaConfig.EventDataSchema = optionsGetString (mkOptions env) "KAFKA_EVENT_DATASCHEMA" := by
  have h2 : clowderStage (mkOptions env) (envStage (mkOptions env) env) p = some c := h
  obtain ⟨pp, prp, db, rds, kafka, broker, ssl, cw, oss, bucket, ak, sk,
    hpp, hprp, hdb, hrds, hkafka, hbroker, hssl, hcw, hoss, hbucket, hak, hsk, hc⟩ :=
    clowderStage_some h2
  subst hc
  exact ⟨⟨db, rds, hdb, rfl⟩, ⟨oss, bucket, ak, sk, hoss, hbucket, hak, hsk, rfl⟩,
    ⟨cw, hcw, rfl⟩, rfl, rfl, rfl, rfl, rfl, rfl, rfl⟩

/-- Claim C1 witness: the amended theorem applied to the concrete fixture. -/
theorem C1_platform_replacement_witness :
    clowderResolved0.KafkaConfig.Brokers = plat0.KafkaServers ∧
    clowderResolved0.KafkaConfig.GroupID = optionsGetString (mkOptions env0) "KAFKA_GROUP_ID" :=
  ⟨(C1_platform_replacement env0 plat0 clowderResolved0 (by decide)).2.2.2.1,
   (C1_platform_replacement env0 plat0 clowderResolved0 (by decide)).2.2.2.2.1⟩

/-- Claim C3: under active platform injection, the broker SSL policy stays
at its zero value when the first configured broker declares no auth type,
and otherwise is populated from the broker descriptor, its protocol being
the declared one or the "sasl_ssl" default when none is declared. -/
theorem C3_broker_ssl_policy (env : Env) (p : Platform) (c : ExportConfig)
    (kafka : ClowderKafkaConfig) (broker : BrokerConfig)
    (h : Get env (some p) = some c)
    (hk : p.cfg.Kafka = some kafka)
    (hb : kafka.Brokers.head? = some broker) :
    (broker.Authtype = none → c.KafkaConfig.SSLConfig = zeroKafkaSSLConfig) ∧
    (∀ a : String, broker.Authtype = some a →
      ∃ ca sasl u pw m,
        p.kafkaCaResult = Except.ok ca ∧
        broker.Sasl = some sasl ∧
        sasl.Username = some u ∧ sasl.Password = some pw ∧ sasl.SaslMechanism = some m ∧
        c.KafkaConfig.SSLConfig =
          { CA := ca, Username := u, Password := pw, SASLMechanism := m,
            Protocol := (broker.SecurityProtocol).getD "sasl_ssl" }) := by
  have h2 : clowderStage (mkOptions env) (envStage (mkOptions env) env) p = some c := h
  obtain ⟨pp, prp, db, rds, kafka2, broker2, ssl, cw, oss, bucket, ak, sk,
    hpp, hprp, hdb, hrds, hkafka, hbroker, hssl, hcw, hoss, hbucket, hak, hsk, hc⟩ :=
    clowderStage_some h2
  have hkk := Option.some.inj (hk.symm.trans hkafka)
  subst hkk
  have hbb := Option.some.inj (hb.symm.trans hbroker)
  subst hbb
  subst hc
  constructor
  · intro hA
    rw [clowderKafkaSSL, hA] at hssl
    have hz := Option.some.inj hssl
    show ssl = zeroKafkaSSLConfig
    rw [← hz]
    rfl
  · intro a hA
    obtain ⟨ca, sasl, u, pw, m, hca, hsasl, hu, hpw, hm, hs⟩ :=
      clowderKafkaSSL_some_of_auth hA hssl
    exact ⟨ca, sasl, u, pw, m, hca, hsasl, hu, hpw, hm, hs⟩

/-- Claim C3 witness: the populated branch on the concrete fixture. -/
theorem C3_broker_ssl_policy_witness :
    ∃ ca sasl u pw m,
      plat0.kafkaCaResult = Except.ok ca ∧
      broker0.Sasl = some sasl ∧
      sasl.Username = some u ∧ sasl.Password = some pw ∧ sasl.SaslMechanism = some m ∧
      clowderResolved0.KafkaConfig.SSLConfig =
        { CA := ca, Username := u, Password := pw, SASLMechanism := m,
          Protocol := (broker0.SecurityProtocol).getD "sasl_ssl" } :=
  (C3_broker_ssl_policy env0 plat0 clowderResolved0 { Brokers := [broker0] } broker0
    (by decide) rfl rfl).2 "sasl" rfl

/-- Claim C4: if materializing either CA bundle fails during the
platform-injection stage, resolution yields no configuration value at all
(the Go code panics), so no partially-populated snapshot is returned to
any caller. -/
theorem C4_fatal_ca_failure :
    (∀ (env : Env) (p : Platform) (db : ClowderDatabaseConfig) (e : String),
      p.cfg.Database = some db → db.RdsCa ≠ none → p.rdsCaResult = Except.error e →
      Get env (some p) = none) ∧
    (∀ (env : Env) (p : Platform) (kafka : ClowderKafkaConfig) (broker : BrokerConfig)
        (e : String),
      p.cfg.Kafka = some kafka → kafka.Brokers.head? = some broker → broker.Authtype ≠ none →
      p.kafkaCaResult = Except.error e →
      Get env (some p) = none) := by
  constructor
  · intro env p db e hdb hrd herr
    cases hg : Get env (some p) with
    | none => rfl
    | some c =>
      exfalso
      have h2 : clowderStage (mkOptions env) (envStage (mkOptions env) env) p = some c := hg
      obtain ⟨pp, prp, db2, rds, kafka, broker, ssl, cw, oss, bucket, ak, sk,
        hpp, hprp, hdb2, hrds, hkafka, hbroker, hssl, hcw, hoss, hbucket, hak, hsk, hc⟩ :=
        clowderStage_some h2
      have hdd := Option.some.inj (hdb.symm.trans hdb2)
      subst hdd
      rcases hR : db.RdsCa with _ | rca
      · exact hrd hR
      · simp only [getRdsCaPath, hR, herr] at hrds
        exact Except.noConfusion hrds
  · intro env p kafka broker e hk hb hA herr
    cases hg : Get env (some p) with
    | none => rfl
    | some c =>
      exfalso
      have h2 : clowderStage (mkOptions env) (envStage (mkOptions env) env) p = some c := hg
      obtain ⟨pp, prp, db, rds, kafka2, broker2, ssl, cw, oss, bucket, ak, sk,
        hpp, hprp, hdb, hrds, hkafka, hbroker, hssl, hcw, hoss, hbucket, hak, hsk, hc⟩ :=
        clowderStage_some h2
      have hkk := Option.some.inj (hk.symm.trans hkafka)
      subst hkk
      have hbb := Option.some.inj (hb.symm.trans hbroker)
      subst hbb
      rw [clowderKafkaSSL_none_of_caFail hA herr] at hssl
      cases hssl

/-- Claim C4 witness: both fatal branches observed on concrete fixtures. -/
theorem C4_fatal_ca_failure_witness :
    Get env0 (some platRdsFail) = none ∧ Get env0 (some platKafkaFail) = none :=
  ⟨C4_fatal_ca_failure.1 env0 platRdsFail db0 "io error" rfl (by decide) rfl,
   C4_fatal_ca_failure.2 env0 platKafkaFail { Brokers := [broker0] } broker0 "io error"
     rfl rfl (by decide) rfl⟩

/-- Claim C7: the database SSL policy CA path is nil whenever platform
injection is inactive, and under active injection it is present exactly
when the platform database descriptor declares an RDS CA bundle, in which
case it holds the path returned by the successful materialization. -/
theorem C7_rdsca_presence :
    (∀ env : Env, (Get env none).map (fun c => c.DBConfig.SSLCfg.RdsCa) = some none) ∧
    (∀ (env : Env) (p : Platform) (c : ExportConfig) (db : ClowderDatabaseConfig),
      Get env (some p) = some c → p.cfg.Database = some db →
      ((db.RdsCa = none → c.DBConfig.SSLCfg.RdsCa = none) ∧
       (db.RdsCa ≠ none → ∃ path, p.rdsCaResult = Except.ok path ∧
         c.DBConfig.SSLCfg.RdsCa = some path))) := by
  refine ⟨fun env => rfl, ?_⟩
  intro env p c db h hdb
  have h2 : clowderStage (mkOptions env) (envStage (mkOptions env) env) p = some c := h
  obtain ⟨pp, prp, db2, rds, kafka, broker, ssl, cw, oss, bucket, ak, sk,
    hpp, hprp, hdb2, hrds, hkafka, hbroker, hssl, hcw, hoss, hbucket, hak, hsk, hc⟩ :=
    clowderStage_some h2
  have hdd := Option.some.inj (hdb.symm.trans hdb2)
  subst hdd
  subst hc
  constructor
  · intro hR
    simp only [getRdsCaPath, hR, Except.ok.injEq] at hrds
    show rds = none
    rw [← hrds]
  · intro hR
    rcases hE : db.RdsCa with _ | rca
    · exact absurd hE hR
    · rcases hres : p.rdsCaResult with e | path
      · simp only [getRdsCaPath, hE, hres] at hrds
        exact Except.noConfusion hrds
      · refine ⟨path, rfl, ?_⟩
        simp only [getRdsCaPath, hE, hres, Except.ok.injEq] at hrds
        show rds = some path
        rw [← hrds]

/-- Claim C7 witness: the declared-CA branch on the concrete fixture. -/
theorem C7_rdsca_presence_witness :
    ∃ path, plat0.rdsCaResult = Except.ok path ∧
      clowderResolved0.DBConfig.SSLCfg.RdsCa = some path :=
  (C7_rdsca_presence.2 env0 plat0 clowderResolved0 db0 (by decide) rfl).2 (by decide)

/-- Viper's automatic-environment lookup on a single-variable environment
hits its own (already upper-case) key whenever the value is non-empty. -/
theorem viperEnvLookup_envSingle_self (K : String) {v : String}
    (hKU : asciiUpper K = K) (hv : v ≠ "") :
    viperEnvLookup (envSingle K v) K = some v := by
  simp only [viperEnvLookup, hKU, envSingle, eq_self_iff_true, if_true]
  rw [if_neg hv]

/-- A present (non-empty) environment variable wins over the registered
default in a string read. -/
theorem optionsGetString_envSingle (K : String) {v : String}
    (hKU : asciiUpper K = K) (hv : v ≠ "") :
    optionsGetString (mkOptions (envSingle K v)) K = v := by
  simp only [optionsGetString, optionsGet, mkOptions]
  rw [viperEnvLookup_envSingle_self K hKU hv]
  rfl

/-- A present (non-empty) environment variable wins over the registered
default in an integer read (the string is parsed). -/
theorem optionsGetInt_envSingle (K : String) {v : String}
    (hKU : asciiUpper K = K) (hv : v ≠ "") :
    optionsGetInt (mkOptions (envSingle K v)) K = goParseInt v := by
  simp only [optionsGetInt, optionsGet, mkOptions]
  rw [viperEnvLookup_envSingle_self K hKU hv]
  rfl

/-- A present (non-empty) environment variable wins over the registered
default in a boolean read (the string is parsed). -/
theorem optionsGetBool_envSingle (K : String) {v : String}
    (hKU : asciiUpper K = K) (hv : v ≠ "") :
    optionsGetBool (mkOptions (envSingle K v)) K = goParseBool v := by
  simp only [optionsGetBool, optionsGet, mkOptions]
  rw [viperEnvLookup_envSingle_self K hKU hv]
  rfl

/-- A present (non-empty) environment variable wins over the registered
default in a string-slice read (the string is split on whitespace by
viper's cast). -/
theorem optionsGetStringSlice_envSingle (K : String) {v : String}
    (hKU : asciiUpper K = K) (hv : v ≠ "") :
    optionsGetStringSlice (mkOptions (envSingle K v)) K = goFields v := by
  simp only [optionsGetStringSlice, optionsGet, mkOptions]
  rw [viperEnvLookup_envSingle_self K hKU hv]
  rfl

/-- Claim C6: with platform injection inactive, for every recognized
configuration key a present (non-empty; viper treats an empty value as
unset) environment variable overrides the stage-1 default for that key and
only for that key: the resolved snapshot equals the all-defaults snapshot
with exactly that key's binding replaced by the (cast) environment value.
One conjunct per recognized key of the interface table; EXPORTS_PSKS and
KAFKA_BROKERS feed the comma/whitespace-split lists, MINIO_HOST, MINIO_PORT
and MINIO_SSL feed the derived endpoint (and TLS flag), and
EXPORT_SERVICE_BUCKET has no effect while injection is inactive; in
particular PGSQL_USER=v yields DatabaseConfig.User = v with all other
database fields at their defaults. -/
theorem C6_env_override :
    (∀ v : String, v ≠ "" → Get (envSingle "PUBLIC_PORT" v) none =
      some { defaultResolved with PublicPort := goParseInt v }) ∧
    (∀ v : String, v ≠ "" → Get (envSingle "METRICS_PORT" v) none =
      some { defaultResolved with MetricsPort := goParseInt v }) ∧
    (∀ v : String, v ≠ "" → Get (envSingle "PRIVATE_PORT" v) none =
      some { defaultResolved with PrivatePort := goParseInt v }) ∧
    (∀ v : String, v ≠ "" → Get (envSingle "LOG_LEVEL" v) none =
      some { defaultResolved with LogLevel := v }) ∧
    (∀ v : String, v ≠ "" → Get (envSingle "DEBUG" v) none =
      some { defaultResolved with Debug := goParseBool v }) ∧
    (∀ v : String, v ≠ "" → Get (envSingle "OPEN_API_FILE_PATH" v) none =
      some { defaultResolved with OpenAPIPublicPath := v }) ∧
    (∀ v : String, v ≠ "" → Get (envSingle "OPEN_API_PRIVATE_PATH" v) none =
      some { defaultResolved with OpenAPIPrivatePath := v }) ∧
    (∀ v : String, Get (envSingle "EXPORTS_PSKS" v) none =
      some { defaultResolved with Psks := goSplitComma v }) ∧
    (∀ v : String, v ≠ "" → Get (envSingle "EXPORT_EXPIRY_DAYS" v) none =
      some { defaultResolved with ExportExpiryDays := goParseInt v }) ∧
    (∀ v : String, v ≠ "" → Get (envSingle "PGSQL_USER" v) none =
      some { defaultResolved with
        DBConfig := { defaultResolved.DBConfig with User := v } }) ∧
    (∀ v : String, v ≠ "" → Get (envSingle "PGSQL_PASSWORD" v) none =
      some { defaultResolved with
        DBConfig := { defaultResolved.DBConfig with Password := v } }) ∧
    (∀ v : String, v ≠ "" → Get (envSingle "PGSQL_HOSTNAME" v) none =
      some { defaultResolved with
        DBConfig := { defaultResolved.DBConfig with Hostname := v } }) ∧
    (∀ v : String, v ≠ "" → Get (envSingle "PGSQL_PORT" v) none =
      some { defaultResolved with
        DBConfig := { defaultResolved.DBConfig with Port := v } }) ∧
    (∀ v : String, v ≠ "" → Get (envSingle "PGSQL_DATABASE" v) none =
      some { defaultResolved with
        DBConfig := { defaultResolved.DBConfig with Name := v } }) ∧
    (∀ v : String, v ≠ "" → Get (envSingle "MINIO_HOST" v) none =
      some { defaultResolved with
        StorageConfig := { defaultResolved.StorageConfig with
          Endpoint := buildBaseHttpUrl false v 9099 } }) ∧
    (∀ v : String, v ≠ "" → Get (envSingle "MINIO_PORT" v) none =
      some { defaultResolved with
        StorageConfig := { defaultResolved.StorageConfig with
          Endpoint := buildBaseHttpUrl false "localhost" (goParseInt v) } }) ∧
    (∀ v : String, v ≠ "" → Get (envSingle "MINIO_SSL" v) none =
      some { defaultResolved with
        StorageConfig := { defaultResolved.StorageConfig with
          Endpoint := buildBaseHttpUrl (goParseBool v) "localhost" 9099,
          UseSSL := goParseBool v } }) ∧
    (∀ v : String, v ≠ "" → Get (envSingle "AWS_ACCESS_KEY" v) none =
      some { defaultResolved with
        StorageConfig := { defaultResolved.StorageConfig with AccessKey := v } }) ∧
    (∀ v : String, v ≠ "" → Get (envSingle "AWS_SECRET_ACCESS_KEY" v) none =
      some { defaultResolved with
        StorageConfig := { defaultResolved.StorageConfig with SecretKey := v } }) ∧
    (∀ v : String, v ≠ "" → Get (envSingle "KAFKA_BROKERS" v) none =
      some { defaultResolved with
        KafkaConfig := { defaultResolved.KafkaConfig with Brokers := goFields v } }) ∧
    (∀ v : String, v ≠ "" → Get (envSingle "KAFKA_GROUP_ID" v) none =
      some { defaultResolved with
        KafkaConfig := { defaultResolved.KafkaConfig with GroupID := v } }) ∧
    (∀ v : String, v ≠ "" → Get (envSingle "KAFKA_ANNOUNCE_TOPIC" v) none =
      some { defaultResolved with
        KafkaConfig := { defaultResolved.KafkaConfig with ExportsTopic := v } }) ∧
    (∀ v : String, v ≠ "" → Get (envSingle "KAFKA_EVENT_SOURCE" v) none =
      some { defaultResolved with
        KafkaConfig := { defaultResolved.KafkaConfig with EventSource := v } }) ∧
    (∀ v : String, v ≠ "" → Get (envSingle "KAFKA_EVENT_SPECVERSION" v) none =
      some { defaultResolved with
        KafkaConfig := { defaultResolved.KafkaConfig with EventSpecVersion := v } }) ∧
    (∀ v : String, v ≠ "" → Get (envSingle "KAFKA_EVENT_TYPE" v) none =
      some { defaultResolved with
        KafkaConfig := { defaultResolved.KafkaConfig with EventType := v } }) ∧
    (∀ v : String, v ≠ "" → Get (envSingle "KAFKA_EVENT_DATASCHEMA" v) none =
      some { defaultResolved with
        KafkaConfig := { defaultResolved.KafkaConfig with EventDataSchema := v } }) ∧
    (∀ v : String, Get (envSingle "EXPORT_SERVICE_BUCKET" v) none =
      some defaultResolved) := by
  refine ⟨?_, ?_, ?_, ?_, ?_, ?_, ?_, ?_, ?_, ?_, ?_, ?_, ?_, ?_, ?_, ?_, ?_, ?_, ?_,
    ?_, ?_, ?_, ?_, ?_, ?_, ?_, ?_⟩
  · intro v hv
    have hb : Get (envSingle "PUBLIC_PORT" v) none = some { defaultResolved with
        PublicPort := optionsGetInt (mkOptions (envSingle "PUBLIC_PORT" v)) "PUBLIC_PORT" } := rfl
    rw [hb, optionsGetInt_envSingle "PUBLIC_PORT" rfl hv]
  · intro v hv
    have hb : Get (envSingle "METRICS_PORT" v) none = some { defaultResolved with
        MetricsPort := optionsGetInt (mkOptions (envSingle "METRICS_PORT" v)) "METRICS_PORT" } := rfl
    rw [hb, optionsGetInt_envSingle "METRICS_PORT" rfl hv]
  · intro v hv
    have hb : Get (envSingle "PRIVATE_PORT" v) none = some { defaultResolved with
        PrivatePort := optionsGetInt (mkOptions (envSingle "PRIVATE_PORT" v)) "PRIVATE_PORT" } := rfl
    rw [hb, optionsGetInt_envSingle "PRIVATE_PORT" rfl hv]
  · intro v hv
    have hb : Get (envSingle "LOG_LEVEL" v) none = some { defaultResolved with
        LogLevel := optionsGetString (mkOptions (envSingle "LOG_LEVEL" v)) "LOG_LEVEL" } := rfl
    rw [hb, optionsGetString_envSingle "LOG_LEVEL" rfl hv]
  · intro v hv
    have hb : Get (envSingle "DEBUG" v) none = some { defaultResolved with
        Debug := optionsGetBool (mkOptions (envSingle "DEBUG" v)) "DEBUG" } := rfl
    rw [hb, optionsGetBool_envSingle "DEBUG" rfl hv]
  · intro v hv
    have hb : Get (envSingle "OPEN_API_FILE_PATH" v) none = some { defaultResolved with
        OpenAPIPublicPath :=
          optionsGetString (mkOptions (envSingle "OPEN_API_FILE_PATH" v)) "OPEN_API_FILE_PATH" } := rfl
    rw [hb, optionsGetString_envSingle "OPEN_API_FILE_PATH" rfl hv]
  · intro v hv
    have hb : Get (envSingle "OPEN_API_PRIVATE_PATH" v) none = some { defaultResolved with
        OpenAPIPrivatePath :=
          optionsGetString (mkOptions (envSingle "OPEN_API_PRIVATE_PATH" v)) "OPEN_API_PRIVATE_PATH" } := rfl
    rw [hb, optionsGetString_envSingle "OPEN_API_PRIVATE_PATH" rfl hv]
  · intro v
    rfl
  · intro v hv
    have hb : Get (envSingle "EXPORT_EXPIRY_DAYS" v) none = some { defaultResolved with
        ExportExpiryDays :=
          optionsGetInt (mkOptions (envSingle "EXPORT_EXPIRY_DAYS" v)) "EXPORT_EXPIRY_DAYS" } := rfl
    rw [hb, optionsGetInt_envSingle "EXPORT_EXPIRY_DAYS" rfl hv]
  · intro v hv
    have hb : Get (envSingle "PGSQL_USER" v) none = some { defaultResolved with
        DBConfig := { defaultResolved.DBConfig with
          User := optionsGetString (mkOptions (envSingle "PGSQL_USER" v)) "PGSQL_USER" } } := rfl
    rw [hb, optionsGetString_envSingle "PGSQL_USER" rfl hv]
  · intro v hv
    have hb : Get (envSingle "PGSQL_PASSWORD" v) none = some { defaultResolved with
        DBConfig := { defaultResolved.DBConfig with
          Password := optionsGetString (mkOptions (envSingle "PGSQL_PASSWORD" v)) "PGSQL_PASSWORD" } } := rfl
    rw [hb, optionsGetString_envSingle "PGSQL_PASSWORD" rfl hv]
  · intro v hv
    have hb : Get (envSingle "PGSQL_HOSTNAME" v) none = some { defaultResolved with
        DBConfig := { defaultResolved.DBConfig with
          Hostname := optionsGetString (mkOptions (envSingle "PGSQL_HOSTNAME" v)) "PGSQL_HOSTNAME" } } := rfl
    rw [hb, optionsGetString_envSingle "PGSQL_HOSTNAME" rfl hv]
  · intro v hv
    have hb : Get (envSingle "PGSQL_PORT" v) none = some { defaultResolved with
        DBConfig := { defaultResolved.DBConfig with
          Port := optionsGetString (mkOptions (envSingle "PGSQL_PORT" v)) "PGSQL_PORT" } } := rfl
    rw [hb, optionsGetString_envSingle "PGSQL_PORT" rfl hv]
  · intro v hv
    have hb : Get (envSingle "PGSQL_DATABASE" v) none = some { defaultResolved with
        DBConfig := { defaultResolved.DBConfig with
          Name := optionsGetString (mkOptions (envSingle "PGSQL_DATABASE" v)) "PGSQL_DATABASE" } } := rfl
    rw [hb, optionsGetString_envSingle "PGSQL_DATABASE" rfl hv]
  · intro v hv
    have hb : Get (envSingle "MINIO_HOST" v) none = some { defaultResolved with
        StorageConfig := { defaultResolved.StorageConfig with
          Endpoint := buildBaseHttpUrl false
            (optionsGetString (mkOptions (envSingle "MINIO_HOST" v)) "MINIO_HOST") 9099 } } := rfl
    rw [hb, optionsGetString_envSingle "MINIO_HOST" rfl hv]
  · intro v hv
    have hb : Get (envSingle "MINIO_PORT" v) none = some { defaultResolved with
        StorageConfig := { defaultResolved.StorageConfig with
          Endpoint := buildBaseHttpUrl false "localhost"
            (optionsGetInt (mkOptions (envSingle "MINIO_PORT" v)) "MINIO_PORT") } } := rfl
    rw [hb, optionsGetInt_envSingle "MINIO_PORT" rfl hv]
  · intro v hv
    have hb : Get (envSingle "MINIO_SSL" v) none = some { defaultResolved with
        StorageConfig := { defaultResolved.StorageConfig with
          Endpoint := buildBaseHttpUrl
            (optionsGetBool (mkOptions (envSingle "MINIO_SSL" v)) "MINIO_SSL") "localhost" 9099,
          UseSSL := optionsGetBool (mkOptions (envSingle "MINIO_SSL" v)) "MINIO_SSL" } } := rfl
    rw [hb, optionsGetBool_envSingle "MINIO_SSL" rfl hv]
  · intro v hv
    have hb : Get (envSingle "AWS_ACCESS_KEY" v) none = some { defaultResolved with
        StorageConfig := { defaultResolved.StorageConfig with
          AccessKey := optionsGetString (mkOptions (envSingle "AWS_ACCESS_KEY" v)) "AWS_ACCESS_KEY" } } := rfl
    rw [hb, optionsGetString_envSingle "AWS_ACCESS_KEY" rfl hv]
  · intro v hv
    have hb : Get (envSingle "AWS_SECRET_ACCESS_KEY" v) none = some { defaultResolved with
        StorageConfig := { defaultResolved.StorageConfig with
          SecretKey := optionsGetString (mkOptions (envSingle "AWS_SECRET_ACCESS_KEY" v))
            "AWS_SECRET_ACCESS_KEY" } } := rfl
    rw [hb, optionsGetString_envSingle "AWS_SECRET_ACCESS_KEY" rfl hv]
  · intro v hv
    have hb : Get (envSingle "KAFKA_BROKERS" v) none = some { defaultResolved with
        KafkaConfig := { defaultResolved.KafkaConfig with
          Brokers := optionsGetStringSlice (mkOptions (envSingle "KAFKA_BROKERS" v))
            "KAFKA_BROKERS" } } := rfl
    rw [hb, optionsGetStringSlice_envSingle "KAFKA_BROKERS" rfl hv]
  · intro v hv
    have hb : Get (envSingle "KAFKA_GROUP_ID" v) none = some { defaultResolved with
        KafkaConfig := { defaultResolved.KafkaConfig with
          GroupID := optionsGetString (mkOptions (envSingle "KAFKA_GROUP_ID" v)) "KAFKA_GROUP_ID" } } := rfl
    rw [hb, optionsGetString_envSingle "KAFKA_GROUP_ID" rfl hv]
  · intro v hv
    have hb : Get (envSingle "KAFKA_ANNOUNCE_TOPIC" v) none = some { defaultResolved with
        KafkaConfig := { defaultResolved.KafkaConfig with
          ExportsTopic := optionsGetString (mkOptions (envSingle "KAFKA_ANNOUNCE_TOPIC" v))
            "KAFKA_ANNOUNCE_TOPIC" } } := rfl
    rw [hb, optionsGetString_envSingle "KAFKA_ANNOUNCE_TOPIC" rfl hv]
  · intro v hv
    have hb : Get (envSingle "KAFKA_EVENT_SOURCE" v) none = some { defaultResolved with
        KafkaConfig := { defaultResolved.KafkaConfig with
          EventSource := optionsGetString (mkOptions (envSingle "KAFKA_EVENT_SOURCE" v))
            "KAFKA_EVENT_SOURCE" } } := rfl
    rw [hb, optionsGetString_envSingle "KAFKA_EVENT_SOURCE" rfl hv]
  · intro v hv
    have hb : Get (envSingle "KAFKA_EVENT_SPECVERSION" v) none = some { defaultResolved with
        KafkaConfig := { defaultResolved.KafkaConfig with
          EventSpecVersion := optionsGetString (mkOptions (envSingle "KAFKA_EVENT_SPECVERSION" v))
            "KAFKA_EVENT_SPECVERSION" } } := rfl
    rw [hb, optionsGetString_envSingle "KAFKA_EVENT_SPECVERSION" rfl hv]
  · intro v hv
    have hb : Get (envSingle "KAFKA_EVENT_TYPE" v) none = some { defaultResolved with
        KafkaConfig := { defaultResolved.KafkaConfig with
          EventType := optionsGetString (mkOptions (envSingle "KAFKA_EVENT_TYPE" v))
            "KAFKA_EVENT_TYPE" } } := rfl
    rw [hb, optionsGetString_envSingle "KAFKA_EVENT_TYPE" rfl hv]
  · intro v hv
    have hb : Get (envSingle "KAFKA_EVENT_DATASCHEMA" v) none = some { defaultResolved with
        KafkaConfig := { defaultResolved.KafkaConfig with
          EventDataSchema := optionsGetString (mkOptions (envSingle "KAFKA_EVENT_DATASCHEMA" v))
            "KAFKA_EVENT_DATASCHEMA" } } := rfl
    rw [hb, optionsGetString_envSingle "KAFKA_EVENT_DATASCHEMA" rfl hv]
  · intro v
    rfl

/-- Claim C6 witness: the documented PGSQL_USER=alice instance of the
per-key override conjunction. -/
theorem C6_env_override_witness :
    ("alice" : String) ≠ "" ∧
    Get (envSingle "PGSQL_USER" "alice") none =
      some { defaultResolved with
        DBConfig := { defaultResolved.DBConfig with User := "alice" } } :=
  ⟨by decide, (C6_env_override.2.2.2.2.2.2.2.2.2.1) "alice" (by decide)⟩

/-- Claim C8: resolution is idempotent: once a first call has stored a
snapshot, any later call returns that same snapshot unchanged, without
consulting the (possibly different) environment or platform sources. -/
theorem C8_idempotent_resolution (env : Env) (platform : Option Platform)
    (env2 : Env) (platform2 : Option Platform) (c : ExportConfig) (st1 : Option ExportConfig)
    (h : GetCached env platform none = (some c, st1)) :
    st1 = some c ∧ GetCached env2 platform2 st1 = (some c, some c) := by
  simp only [GetCached] at h
  cases hg : Get env platform with
  | none =>
    rw [hg] at h
    injection h with h1 h2
    exact Option.noConfusion h1
  | some d =>
    rw [hg] at h
    injection h with h1 h2
    cases Option.some.inj h1
    exact ⟨h2.symm, by rw [← h2]; rfl⟩

/-- Claim C8 witness: the second call reuses the stored snapshot even when
the sources have changed to a different environment and an active platform. -/
theorem C8_idempotent_resolution_witness :
    (some defaultResolved : Option ExportConfig) = some defaultResolved ∧
    GetCached envKG (some plat0) (some defaultResolved) =
      (some defaultResolved, some defaultResolved) :=
  C8_idempotent_resolution env0 none envKG (some plat0) defaultResolved
    (some defaultResolved) (by decide)

/-- Claim C10 counterexample: with EXPORTS_PSKS unset but an environment
variable named PSKS present, the resolved PSK list is not [""] (viper's
automatic-environment lookup reads the PSKS key itself). -/
theorem C10_counterexample :
    envPsks "EXPORTS_PSKS" = none ∧
    (Get envPsks none).map (fun c => c.Psks) = some ["extra-psk"] ∧
    (some ["extra-psk"] : Option (List String)) ≠ some [""] :=
  ⟨by decide, by decide, by decide⟩

/-- Claim C10 (amended): with platform injection inactive, splitting the
empty string on a comma makes the derived lists non-empty: Psks = [""]
when EXPORTS_PSKS is unset or empty, provided the viper key PSKS itself is
not overridden by an environment variable; and Brokers = [""] when
KAFKA_BROKERS is unset or empty. -/
theorem C10_empty_comma_lists (env : Env) (c : ExportConfig)
    (h : Get env none = some c) :
    (((env "EXPORTS_PSKS" = none ∨ env "EXPORTS_PSKS" = some "") ∧
      (env "PSKS" = none ∨ env "PSKS" = some "")) → c.Psks = [""]) ∧
    ((env "KAFKA_BROKERS" = none ∨ env "KAFKA_BROKERS" = some "") →
      c.KafkaConfig.Brokers = [""]) := by
  have h2 : some (envStage (mkOptions env) env) = some c := h
  have hc := (Option.some.inj h2).symm
  subst hc
  constructor
  · rintro ⟨hE, hP⟩
    show optionsGetStringSlice (mkOptions env) "PSKS" = [""]
    have hlook : viperEnvLookup env "PSKS" = none := by
      show (match env "PSKS" with
        | some w => if w = "" then none else some w
        | none => none) = none
      rcases hP with h1 | h1
      · rw [h1]
      · rw [h1]; rfl
    have hos : osGetenv env "EXPORTS_PSKS" = "" := by
      rcases hE with h1 | h1 <;> (rw [osGetenv, h1]; rfl)
    simp only [optionsGetStringSlice, optionsGet, mkOptions]
    rw [hlook]
    simp only [defaultsFor, lookupAssoc]
    rw [hos]
    rfl
  · intro hB
    show optionsGetStringSlice (mkOptions env) "KAFKA_BROKERS" = [""]
    have hlook : viperEnvLookup env "KAFKA_BROKERS" = none := by
      show (match env "KAFKA_BROKERS" with
        | some w => if w = "" then none else some w
        | none => none) = none
      rcases hB with h1 | h1
      · rw [h1]
      · rw [h1]; rfl
    have hos : osGetenv env "KAFKA_BROKERS" = "" := by
      rcases hB with h1 | h1 <;> (rw [osGetenv, h1]; rfl)
    simp only [optionsGetStringSlice, optionsGet, mkOptions]
    rw [hlook]
    simp only [defaultsFor, lookupAssoc]
    rw [hos]
    rfl

/-- Claim C10 witness: the amended theorem on the empty environment. -/
theorem C10_empty_comma_lists_witness :
    defaultResolved.Psks = [""] ∧ defaultResolved.KafkaConfig.Brokers = [""] :=
  ⟨(C10_empty_comma_lists env0 defaultResolved (by decide)).1 ⟨Or.inl rfl, Or.inl rfl⟩,
   (C10_empty_comma_lists env0 defaultResolved (by decide)).2 (Or.inl rfl)⟩

end ExportServiceConfig
